import Mathlib

/-!
Shallow embedding of the authentication routes of the Recipe Finder backend
(`src/server/routes/auth.js`) together with the relevant parts of its MySQL
schema (`users` and `password_resets` tables).

Modelling conventions:
* Time is a `Nat` of milliseconds (`Date.now()` / SQL `NOW()` become a `now`
  parameter; `new Date(Date.now() + k)` becomes `now + k`).
* The database is a `Store`: a list of `users` rows and a list of
  `password_resets` rows, with auto-increment counters.
* `crypto.randomBytes(32).toString(hex)` becomes a `freshToken : String`
  parameter; `bcrypt.hash` becomes a `hashed… : String` parameter and
  `bcrypt.compare` a `compare : String → String → Bool` parameter;
  `jwt.sign` becomes a `signedToken : String` parameter.  These are the
  external collaborators of the handlers.
* the express-validator result `validationResult(req).isEmpty()` becomes a
  `valid : Bool` parameter; the handler bodies read the post-sanitization
  field values, exactly as the JS code does after the validator chain ran.
* `transporter.sendMail` invocations are recorded in a `mails` list.  In
  `register` and `resend-verification` the send is *awaited* inside the
  `try`, so a rejected send throws into the `catch`; this outcome is the
  `mailOk : Bool` parameter.  In `forgot-password` and `reset-password` the
  send is callback-style and cannot affect the response.
* Each handler returns the JSON response, the resulting store, and the list
  of attempted email sends.
-/

namespace RecipeAuth

/-- A row of the `users` table (columns used by the auth routes; `username`
and `email` carry UNIQUE constraints in the schema, `id` is the primary
key). -/
structure User where
  id : Nat
  username : String
  email : String
  password : String
  is_verified : Bool
  verification_token : Option String
  verification_token_expiry : Option Nat
deriving DecidableEq, Repr

/-- A row of the `password_resets` table. -/
structure ResetRow where
  id : Nat
  user_id : Nat
  token : String
  expires_at : Nat
deriving DecidableEq, Repr

/-- The database state seen by the auth routes. -/
structure Store where
  users : List User
  resets : List ResetRow
  nextUserId : Nat
  nextResetId : Nat
deriving DecidableEq, Repr

/-- One `transporter.sendMail` invocation: the `to:` address and, for
verification/reset mails, the opaque token embedded in the link. -/
structure EmailMsg where
  toAddr : String
  tokenSent : Option String
deriving DecidableEq, Repr

/-- The JSON body + HTTP status produced by a handler.  Fields that a given
response does not set are `none`/`false`.  `errorsList` marks the
express-validator `{ errors: [...] }` body shape. -/
structure ApiResponse where
  status : Nat
  success : Bool
  message : String
  requiresVerification : Option Bool := none
  userId : Option Nat := none
  email : Option String := none
  verified : Option Bool := none
  token : Option String := none
  userOut : Option (Nat × String × String) := none
  errorsList : Bool := false
deriving DecidableEq, Repr

/-- Result of one handler invocation. -/
structure OpResult where
  resp : ApiResponse
  store : Store
  mails : List EmailMsg
deriving DecidableEq, Repr

/-- 24 hours in milliseconds (`24 * 60 * 60 * 1000`). -/
def MS24H : Nat := 24 * 60 * 60 * 1000

/-- 1 hour in milliseconds (`60 * 60 * 1000`). -/
def MS1H : Nat := 60 * 60 * 1000

/-- The 400 response carrying the express-validator errors array. -/
def validationErrResp : ApiResponse :=
  { status := 400, success := false, message := "", errorsList := true }

/-- A plain `{ success:false, message }` error response. -/
def errResp (status : Nat) (msg : String) : ApiResponse :=
  { status := status, success := false, message := msg }

/-- Row predicate of `SELECT ... FROM users WHERE username = ? OR email = ?`. -/
def regConflictQuery (username email : String) : User → Bool :=
  fun u => u.username == username || u.email == email

/-- Row predicate of `SELECT ... FROM users WHERE username = ?`. -/
def byUsername (username : String) : User → Bool :=
  fun u => u.username == username

/-- Row predicate of `SELECT ... FROM users WHERE email = ?`. -/
def byEmail (email : String) : User → Bool :=
  fun u => u.email == email

/-- SQL `verification_token_expiry > NOW()` (NULL compares false). -/
def expiryLive (now : Nat) : Option Nat → Bool
  | some e => now < e
  | none => false

/-- Row predicate of the verify-email lookup:
`WHERE email = ? AND verification_token = ? AND verification_token_expiry > NOW()`. -/
def verifyQuery (email tok : String) (now : Nat) : User → Bool :=
  fun u => u.email == email && u.verification_token == some tok
    && expiryLive now u.verification_token_expiry

/-- Row predicate of
`SELECT ... FROM password_resets WHERE user_id = ? AND token = ?`. -/
def resetQuery (uid : Nat) (tok : String) : ResetRow → Bool :=
  fun r => r.user_id == uid && r.token == tok

/-- Statement `UPDATE users SET verification_token = ?,
verification_token_expiry = ? WHERE id = ?`. -/
def setTokenById (tok : String) (exp uid : Nat) : User → User :=
  fun u =>
    if u.id == uid then
      { u with verification_token := some tok, verification_token_expiry := some exp }
    else u

/-- Statement `UPDATE users SET verification_token = ?,
verification_token_expiry = ? WHERE email = ?`. -/
def setTokenByEmail (tok : String) (exp : Nat) (email : String) : User → User :=
  fun u =>
    if u.email == email then
      { u with verification_token := some tok, verification_token_expiry := some exp }
    else u

/-- Statement `UPDATE users SET is_verified = TRUE, verification_token = NULL,
verification_token_expiry = NULL WHERE email = ?`. -/
def markVerified (email : String) : User → User :=
  fun u =>
    if u.email == email then
      { u with is_verified := true, verification_token := none,
               verification_token_expiry := none }
    else u

/-- Statement `UPDATE users SET password = ? WHERE id = ?`. -/
def setPassword (hash : String) (uid : Nat) : User → User :=
  fun u => if u.id == uid then { u with password := hash } else u

/-- Route `POST /api/auth/register`.  `freshToken` is the
`crypto.randomBytes(32).toString(hex)` output, `hashedPassword` the bcrypt
hash of the request password, `mailOk` whether the awaited
`sendVerificationEmail` resolves (a rejection lands in the `catch` of the route). -/
def register (valid mailOk : Bool) (now : Nat) (freshToken hashedPassword : String)
    (st : Store) (username email : String) : OpResult :=
  if valid then
    match st.users.find? (regConflictQuery username email) with
    | some existingUser =>
      if existingUser.is_verified = false then
        let st' : Store :=
          { st with users := st.users.map (setTokenById freshToken (now + MS24H) existingUser.id) }
        let mails : List EmailMsg := [{ toAddr := email, tokenSent := some freshToken }]
        if mailOk then
          { resp := { status := 200, success := true,
                      message := "Account exists but not verified. New verification email sent.",
                      requiresVerification := some true },
            store := st', mails := mails }
        else
          { resp := errResp 500 "Error registering user", store := st', mails := mails }
      else
        { resp := errResp 400 "Username or email already exists", store := st, mails := [] }
    | none =>
      let newUser : User :=
        { id := st.nextUserId, username := username, email := email,
          password := hashedPassword, is_verified := false,
          verification_token := some freshToken,
          verification_token_expiry := some (now + MS24H) }
      let st' : Store :=
        { st with users := st.users ++ [newUser], nextUserId := st.nextUserId + 1 }
      let mails : List EmailMsg := [{ toAddr := email, tokenSent := some freshToken }]
      if mailOk then
        { resp := { status := 201, success := true,
                    message := "Registration successful! Please check your email to verify your account.",
                    requiresVerification := some true, userId := some newUser.id },
          store := st', mails := mails }
      else
        { resp := errResp 500 "Error registering user", store := st', mails := mails }
  else
    { resp := validationErrResp, store := st, mails := [] }

/-- Route `GET /api/auth/verify-email`.  Query parameters may be absent (`none`);
JS `!token || !email` also treats the empty string as missing. -/
def verifyEmail (now : Nat) (st : Store) (tok email : Option String) : OpResult :=
  match tok, email with
  | some t, some e =>
    if t == "" || e == "" then
      { resp := errResp 400 "Token and email are required", store := st, mails := [] }
    else
      match st.users.find? (verifyQuery e t now) with
      | none =>
        { resp := errResp 400 "Invalid or expired verification token", store := st, mails := [] }
      | some _ =>
        { resp := { status := 200, success := true,
                    message := "Email verified successfully! You can now log in.",
                    verified := some true },
          store := { st with users := st.users.map (markVerified e) }, mails := [] }
  | _, _ =>
    { resp := errResp 400 "Token and email are required", store := st, mails := [] }

/-- Route `POST /api/auth/resend-verification`.  The send is awaited inside the
`try`, so `mailOk = false` lands in the `catch`. -/
def resendVerification (valid mailOk : Bool) (now : Nat) (freshToken : String)
    (st : Store) (email : String) : OpResult :=
  if valid then
    match st.users.find? (byEmail email) with
    | none => { resp := errResp 404 "Email not found", store := st, mails := [] }
    | some user =>
      if user.is_verified then
        { resp := errResp 400 "Email is already verified", store := st, mails := [] }
      else
        let st' : Store :=
          { st with users := st.users.map (setTokenByEmail freshToken (now + MS24H) email) }
        let mails : List EmailMsg := [{ toAddr := email, tokenSent := some freshToken }]
        if mailOk then
          { resp := { status := 200, success := true,
                      message := "Verification email sent! Please check your inbox." },
            store := st', mails := mails }
        else
          { resp := errResp 500 "Error sending verification email", store := st', mails := mails }
  else
    { resp := validationErrResp, store := st, mails := [] }

/-- Route `POST /api/auth/login`.  `compare` is `bcrypt.compare`, `signedToken`
the `jwt.sign` output.  The handler never writes to the store. -/
def login (valid : Bool) (compare : String → String → Bool) (signedToken : String)
    (st : Store) (username password : String) : ApiResponse :=
  if valid then
    match st.users.find? (byUsername username) with
    | none => errResp 400 "Invalid username or password"
    | some user =>
      if user.is_verified = false then
        { status := 403, success := false,
          message := "Please verify your email before logging in",
          requiresVerification := some true, email := some user.email }
      else if compare password user.password = false then
        errResp 400 "Invalid username or password"
      else
        { status := 200, success := true, message := "Login successful",
          token := some signedToken,
          userOut := some (user.id, user.username, user.email) }
  else
    validationErrResp

/-- Route `POST /api/auth/forgot-password`.  The reset mail is sent callback-style
(fire-and-forget), so the response does not depend on its outcome. -/
def forgotPassword (valid : Bool) (now : Nat) (freshToken : String)
    (st : Store) (email : String) : OpResult :=
  if valid then
    match st.users.find? (byEmail email) with
    | none =>
      { resp := { status := 200, success := true,
                  message := "If the email exists, a reset link has been sent." },
        store := st, mails := [] }
    | some user =>
      let row : ResetRow :=
        { id := st.nextResetId, user_id := user.id, token := freshToken,
          expires_at := now + MS1H }
      { resp := { status := 200, success := true,
                  message := "If the email exists, a reset link has been sent." },
        store := { st with resets := st.resets ++ [row], nextResetId := st.nextResetId + 1 },
        mails := [{ toAddr := user.email, tokenSent := some freshToken }] }
  else
    { resp := validationErrResp, store := st, mails := [] }

/-- Route `POST /api/auth/reset-password`.  `hashedPassword` is the bcrypt hash of
the new password.  The expiry test is JS
`new Date(reset.expires_at) < new Date()`, i.e. strictly
`expires_at < now`; the notification mail is callback-style. -/
def resetPassword (valid : Bool) (now : Nat) (hashedPassword : String)
    (st : Store) (email tok : String) : OpResult :=
  if valid then
    match st.users.find? (byEmail email) with
    | none => { resp := errResp 400 "Invalid token or email", store := st, mails := [] }
    | some user =>
      match st.resets.find? (resetQuery user.id tok) with
      | none => { resp := errResp 400 "Invalid token or email", store := st, mails := [] }
      | some reset =>
        if reset.expires_at < now then
          { resp := errResp 400 "Token expired", store := st, mails := [] }
        else
          { resp := { status := 200, success := true, message := "Password updated successfully" },
            store := { st with
                       users := st.users.map (setPassword hashedPassword user.id),
                       resets := st.resets.filter (fun r => !(r.id == reset.id)) },
            mails := [{ toAddr := email, tokenSent := none }] }
  else
    { resp := validationErrResp, store := st, mails := [] }

/-- An empty database. -/
def emptyStore : Store := { users := [], resets := [], nextUserId := 1, nextResetId := 1 }

/-! ### Claim C1 -/

/-- A register request reaches the email-sending step exactly when its
conflict lookup does not hit a verified user (it hits an unverified user or
nothing). -/
def reachesRegisterSend (st : Store) (username email : String) : Prop :=
  ∀ ex, st.users.find? (regConflictQuery username email) = some ex → ex.is_verified = false

/-- C1 counterexample: a Register request on an empty store reaches the
email-sending step (new-user path); when the awaited send rejects
(`mailOk = false`), the route returns the catch response
`500 "Error registering user"`, not its success response. -/
theorem c1_counterexample :
    (register true false 0 "tok" "hash" emptyStore "alice" "alice@x.com").resp =
      errResp 500 "Error registering user" ∧
    (register true false 0 "tok" "hash" emptyStore "alice" "alice@x.com").resp.success = false := by
  decide

/-- C1 (amended): on every Register request that reaches the email-sending
step (new-user path or unverified-conflict resend path), a failing email
send is not swallowed: the awaited `sendVerificationEmail` rejection lands
in the catch and the route answers `500 "Error registering user"` instead
of the success response (the database write preceding the send persists). -/
theorem c1_amended_mail_failure_500
    (st : Store) (now : Nat) (freshToken hashedPassword username email : String)
    (h : reachesRegisterSend st username email) :
    (register true false now freshToken hashedPassword st username email).resp =
      errResp 500 "Error registering user" := by
  cases hf : st.users.find? (regConflictQuery username email) with
  | none => simp [register, hf]
  | some ex => simp [register, hf, h ex hf]

/-- C1 amended-claim witness at a concrete input. -/
theorem c1_amended_mail_failure_500_witness :
    reachesRegisterSend emptyStore "bob" "bob@x.com" ∧
    (register true false 5 "tk" "hh" emptyStore "bob" "bob@x.com").resp =
      errResp 500 "Error registering user" :=
  ⟨fun ex h => by simp [emptyStore] at h,
   c1_amended_mail_failure_500 emptyStore 5 "tk" "hh" "bob" "bob@x.com"
     (fun ex h => by simp [emptyStore] at h)⟩

/-! ### Claim C3 -/

/-- C3: Login with an unknown username and Login with a known verified
username but a failing password comparison produce byte-identical
responses: the same `400 "Invalid username or password"` payload. -/
theorem c3_login_enumeration_resistance
    (compare : String → String → Bool) (tk1 tk2 u1 p1 u2 p2 : String)
    (st1 st2 : Store) (usr : User)
    (h1 : st1.users.find? (byUsername u1) = none)
    (h2 : st2.users.find? (byUsername u2) = some usr)
    (hv : usr.is_verified = true)
    (hc : compare p2 usr.password = false) :
    login true compare tk1 st1 u1 p1 = login true compare tk2 st2 u2 p2 ∧
    login true compare tk1 st1 u1 p1 = errResp 400 "Invalid username or password" := by
  simp [login, h1, h2, hv, hc]

/-- A verified user used in the C3 witness. -/
def c3User : User :=
  { id := 1, username := "realuser", email := "real@x.com", password := "hashedpw",
    is_verified := true, verification_token := none, verification_token_expiry := none }

/-- Store holding only `c3User`. -/
def c3Store : Store := { users := [c3User], resets := [], nextUserId := 2, nextResetId := 1 }

/-- C3 witness at concrete inputs. -/
theorem c3_login_enumeration_resistance_witness :
    login true (fun a b => a == b) "t1" emptyStore "nouser" "x" =
      login true (fun a b => a == b) "t2" c3Store "realuser" "wrongpass" ∧
    login true (fun a b => a == b) "t1" emptyStore "nouser" "x" =
      errResp 400 "Invalid username or password" :=
  c3_login_enumeration_resistance (fun a b => a == b) "t1" "t2" "nouser" "x"
    "realuser" "wrongpass" emptyStore c3Store c3User
    (by decide) (by decide) (by decide) (by decide)

/-! ### Claim C4 -/

/-- C4: for an unverified user, Login answers the 403 EmailNotVerified
response for every password and every outcome of the bcrypt comparison, and
that response is never the InvalidCredentials payload. -/
theorem c4_unverified_login_forbidden
    (compare : String → String → Bool) (tk username password : String)
    (st : Store) (usr : User)
    (h : st.users.find? (byUsername username) = some usr)
    (hv : usr.is_verified = false) :
    login true compare tk st username password =
      { status := 403, success := false,
        message := "Please verify your email before logging in",
        requiresVerification := some true, email := some usr.email } ∧
    login true compare tk st username password ≠ errResp 400 "Invalid username or password" := by
  refine ⟨by simp [login, h, hv], ?_⟩
  simp [login, h, hv, errResp]

/-- An unverified user used in the C4 witness. -/
def c4User : User :=
  { id := 2, username := "newbie", email := "newbie@x.com", password := "hashA",
    is_verified := false, verification_token := some "vtok",
    verification_token_expiry := some 1000 }

/-- Store holding only `c4User`. -/
def c4Store : Store := { users := [c4User], resets := [], nextUserId := 3, nextResetId := 1 }

/-- C4 witness at concrete inputs. -/
theorem c4_unverified_login_forbidden_witness :
    login true (fun a b => a == b) "t" c4Store "newbie" "hashA" =
      { status := 403, success := false,
        message := "Please verify your email before logging in",
        requiresVerification := some true, email := some "newbie@x.com" } ∧
    login true (fun a b => a == b) "t" c4Store "newbie" "hashA" ≠
      errResp 400 "Invalid username or password" :=
  c4_unverified_login_forbidden (fun a b => a == b) "t" "newbie" "hashA"
    c4Store c4User (by decide) (by decide)

/-! ### Claim C6 -/

/-- C6: ForgotPassword on well-formed input always answers
`200 "If the email exists, a reset link has been sent."`; when no user has
the email, the store is untouched and no mail send is invoked. -/
theorem c6_forgot_password_uniform_response
    (st : Store) (now : Nat) (freshToken email : String) :
    (forgotPassword true now freshToken st email).resp =
      { status := 200, success := true,
        message := "If the email exists, a reset link has been sent." } ∧
    (st.users.find? (byEmail email) = none →
      (forgotPassword true now freshToken st email).store = st ∧
      (forgotPassword true now freshToken st email).mails = []) := by
  cases h : st.users.find? (byEmail email) <;> simp [forgotPassword, h]

/-- C6 witness at a concrete input. -/
theorem c6_forgot_password_uniform_response_witness :
    (forgotPassword true 0 "tok" emptyStore "ghost@x.com").resp =
      { status := 200, success := true,
        message := "If the email exists, a reset link has been sent." } ∧
    (emptyStore.users.find? (byEmail "ghost@x.com") = none →
      (forgotPassword true 0 "tok" emptyStore "ghost@x.com").store = emptyStore ∧
      (forgotPassword true 0 "tok" emptyStore "ghost@x.com").mails = []) :=
  c6_forgot_password_uniform_response emptyStore 0 "tok" "ghost@x.com"

/-! ### Claim C7 -/

/-- A verified user used in the C7 theorems. -/
def c7User : User :=
  { id := 1, username := "bob", email := "bob@x.com", password := "oldhash",
    is_verified := true, verification_token := none, verification_token_expiry := none }

/-- A reset request for `c7User` expiring at time 100. -/
def c7Reset : ResetRow := { id := 1, user_id := 1, token := "rtok", expires_at := 100 }

/-- Store holding `c7User` and `c7Reset`. -/
def c7Store : Store :=
  { users := [c7User], resets := [c7Reset], nextUserId := 2, nextResetId := 2 }

/-- C7 counterexample: at the boundary `now = expires_at` (the claim says
`now >= expires_at` fails with TokenExpired) the strict test of the code
`expires_at < now` is false, so the reset SUCCEEDS: the password is
overwritten and the request row is deleted. -/
theorem c7_counterexample :
    (resetPassword true 100 "newhash" c7Store "bob@x.com" "rtok").resp =
      { status := 200, success := true, message := "Password updated successfully" } ∧
    (resetPassword true 100 "newhash" c7Store "bob@x.com" "rtok").resp ≠
      errResp 400 "Token expired" ∧
    (resetPassword true 100 "newhash" c7Store "bob@x.com" "rtok").store.resets = [] ∧
    (resetPassword true 100 "newhash" c7Store "bob@x.com" "rtok").store.users =
      [{ c7User with password := "newhash" }] := by
  decide

/-- C7 (amended): only strictly after expiry (`now > expires_at`) does a
matched ResetPassword fail with `400 "Token expired"`; in that case the
store is unchanged (request not deleted, password untouched) and no mail is
sent. -/
theorem c7_amended_strict_expiry
    (st : Store) (now : Nat) (hashedPassword email tok : String)
    (u : User) (r0 : ResetRow)
    (hu : st.users.find? (byEmail email) = some u)
    (hr : st.resets.find? (resetQuery u.id tok) = some r0)
    (hexp : r0.expires_at < now) :
    (resetPassword true now hashedPassword st email tok).resp = errResp 400 "Token expired" ∧
    (resetPassword true now hashedPassword st email tok).store = st ∧
    (resetPassword true now hashedPassword st email tok).mails = [] := by
  simp [resetPassword, hu, hr, hexp]

/-- C7 amended-claim witness at a concrete input. -/
theorem c7_amended_strict_expiry_witness :
    (resetPassword true 200 "nh" c7Store "bob@x.com" "rtok").resp = errResp 400 "Token expired" ∧
    (resetPassword true 200 "nh" c7Store "bob@x.com" "rtok").store = c7Store ∧
    (resetPassword true 200 "nh" c7Store "bob@x.com" "rtok").mails = [] :=
  c7_amended_strict_expiry c7Store 200 "nh" "bob@x.com" "rtok" c7User c7Reset
    (by decide) (by decide) (by decide)

/-! ### Claim C2 -/

/-- C2: a Register request hitting an existing unverified row overwrites
the verification token and expiry of that row with the fresh random token and a
24-hour expiry, answers `200` success with `requiresVerification = true`,
and inserts no new user row (every other row is preserved unchanged). -/
theorem c2_register_unverified_conflict_resend
    (st : Store) (now : Nat) (freshToken hashedPassword username email : String) (ex : User)
    (hf : st.users.find? (regConflictQuery username email) = some ex)
    (hv : ex.is_verified = false) :
    (register true true now freshToken hashedPassword st username email).resp =
      { status := 200, success := true,
        message := "Account exists but not verified. New verification email sent.",
        requiresVerification := some true } ∧
    (register true true now freshToken hashedPassword st username email).store.users.length =
      st.users.length ∧
    (∀ v ∈ st.users, v.id ≠ ex.id →
      v ∈ (register true true now freshToken hashedPassword st username email).store.users) ∧
    (∃ v ∈ (register true true now freshToken hashedPassword st username email).store.users,
      v.id = ex.id ∧ v.verification_token = some freshToken ∧
      v.verification_token_expiry = some (now + MS24H)) := by
  have hst : (register true true now freshToken hashedPassword st username email).store.users =
      st.users.map (setTokenById freshToken (now + MS24H) ex.id) := by
    simp [register, hf, hv]
  refine ⟨by simp [register, hf, hv], ?_, ?_, ?_⟩
  · rw [hst]
    exact List.length_map _ _
  · intro v hvmem hne
    rw [hst]
    refine List.mem_map.mpr ⟨v, hvmem, ?_⟩
    simp [setTokenById, hne]
  · refine ⟨setTokenById freshToken (now + MS24H) ex.id ex, ?_, ?_⟩
    · rw [hst]
      exact List.mem_map_of_mem _ (List.mem_of_find?_eq_some hf)
    · simp [setTokenById]

/-- An unverified user used in the C2 witness. -/
def c2User : User :=
  { id := 5, username := "carol", email := "carol@x.com", password := "hC",
    is_verified := false, verification_token := some "old",
    verification_token_expiry := some 10 }

/-- Store holding only `c2User`. -/
def c2Store : Store := { users := [c2User], resets := [], nextUserId := 6, nextResetId := 1 }

/-- C2 witness at concrete inputs. -/
theorem c2_register_unverified_conflict_resend_witness :
    (register true true 50 "newtok" "hp" c2Store "carol" "carol@x.com").resp =
      { status := 200, success := true,
        message := "Account exists but not verified. New verification email sent.",
        requiresVerification := some true } ∧
    (register true true 50 "newtok" "hp" c2Store "carol" "carol@x.com").store.users.length =
      c2Store.users.length ∧
    (∀ v ∈ c2Store.users, v.id ≠ c2User.id →
      v ∈ (register true true 50 "newtok" "hp" c2Store "carol" "carol@x.com").store.users) ∧
    (∃ v ∈ (register true true 50 "newtok" "hp" c2Store "carol" "carol@x.com").store.users,
      v.id = c2User.id ∧ v.verification_token = some "newtok" ∧
      v.verification_token_expiry = some (50 + MS24H)) :=
  c2_register_unverified_conflict_resend c2Store 50 "newtok" "hp" "carol" "carol@x.com"
    c2User (by decide) (by decide)

/-! ### Claim C5 -/

/-- C5: verifying with a correct, unexpired token answers 200, flips every
row carrying that email to verified with both token fields cleared, and a
second VerifyEmail with the same token and email then fails with
`400 "Invalid or expired verification token"` at any later time. -/
theorem c5_verify_email_once
    (st : Store) (now now2 : Nat) (tok email : String) (u : User)
    (ht : tok ≠ "") (he : email ≠ "")
    (hf : st.users.find? (verifyQuery email tok now) = some u) :
    (verifyEmail now st (some tok) (some email)).resp =
      { status := 200, success := true,
        message := "Email verified successfully! You can now log in.",
        verified := some true } ∧
    (∀ v ∈ (verifyEmail now st (some tok) (some email)).store.users, v.email = email →
      v.is_verified = true ∧ v.verification_token = none ∧
      v.verification_token_expiry = none) ∧
    (verifyEmail now2 (verifyEmail now st (some tok) (some email)).store
        (some tok) (some email)).resp =
      errResp 400 "Invalid or expired verification token" := by
  have hst : (verifyEmail now st (some tok) (some email)).store =
      { st with users := st.users.map (markVerified email) } := by
    simp [verifyEmail, ht, he, hf]
  refine ⟨by simp [verifyEmail, ht, he, hf], ?_, ?_⟩
  · intro v hvm hvemail
    rw [hst] at hvm
    rcases List.mem_map.mp hvm with ⟨w, hw, rfl⟩
    by_cases hwe : w.email = email
    · simp [markVerified, hwe]
    · simp [markVerified, hwe] at hvemail
  · rw [hst]
    have hnone : (st.users.map (markVerified email)).find? (verifyQuery email tok now2) = none := by
      apply List.find?_eq_none.mpr
      intro x hx
      rcases List.mem_map.mp hx with ⟨w, hw, rfl⟩
      by_cases hwe : w.email = email
      · simp [verifyQuery, markVerified, hwe]
      · simp [verifyQuery, markVerified, hwe]
    simp [verifyEmail, ht, he, hnone]

/-- An unverified user holding a live token, used in the C5 witness. -/
def c5User : User :=
  { id := 3, username := "dave", email := "dave@x.com", password := "hD",
    is_verified := false, verification_token := some "vt",
    verification_token_expiry := some 100 }

/-- Store holding only `c5User`. -/
def c5Store : Store := { users := [c5User], resets := [], nextUserId := 4, nextResetId := 1 }

/-- C5 witness at concrete inputs. -/
theorem c5_verify_email_once_witness :
    (verifyEmail 50 c5Store (some "vt") (some "dave@x.com")).resp =
      { status := 200, success := true,
        message := "Email verified successfully! You can now log in.",
        verified := some true } ∧
    (∀ v ∈ (verifyEmail 50 c5Store (some "vt") (some "dave@x.com")).store.users,
      v.email = "dave@x.com" →
      v.is_verified = true ∧ v.verification_token = none ∧
      v.verification_token_expiry = none) ∧
    (verifyEmail 60 (verifyEmail 50 c5Store (some "vt") (some "dave@x.com")).store
        (some "vt") (some "dave@x.com")).resp =
      errResp 400 "Invalid or expired verification token" :=
  c5_verify_email_once c5Store 50 60 "vt" "dave@x.com" c5User
    (by decide) (by decide) (by decide)

/-! ### Claim C8 -/

/-- C8: a successful ResetPassword deletes the consumed request row; a
second ResetPassword with the same (email, token) pair then fails with
`400 "Invalid token or email"`.  The uniqueness hypothesis reflects that
reset tokens are 32 random bytes, so two rows never share a
(user_id, token) pair. -/
theorem c8_reset_token_single_use
    (st : Store) (now now2 : Nat) (hashed hashed2 email tok : String)
    (u : User) (r0 : ResetRow)
    (hu : st.users.find? (byEmail email) = some u)
    (hr : st.resets.find? (resetQuery u.id tok) = some r0)
    (hexp : ¬ r0.expires_at < now)
    (huniq : ∀ x ∈ st.resets, x.user_id = u.id → x.token = tok → x = r0) :
    (resetPassword true now hashed st email tok).resp =
      { status := 200, success := true, message := "Password updated successfully" } ∧
    r0 ∉ (resetPassword true now hashed st email tok).store.resets ∧
    (resetPassword true now2 hashed2 (resetPassword true now hashed st email tok).store
        email tok).resp = errResp 400 "Invalid token or email" := by
  have hstu : (resetPassword true now hashed st email tok).store.users =
      st.users.map (setPassword hashed u.id) := by
    simp [resetPassword, hu, hr, hexp]
  have hstr : (resetPassword true now hashed st email tok).store.resets =
      st.resets.filter (fun r => !(r.id == r0.id)) := by
    simp [resetPassword, hu, hr, hexp]
  refine ⟨by simp [resetPassword, hu, hr, hexp], ?_, ?_⟩
  · rw [hstr]
    intro hmem
    have h2 := (List.mem_filter.mp hmem).2
    simp at h2
  · have hfu : ((resetPassword true now hashed st email tok).store.users).find? (byEmail email)
        = some (setPassword hashed u.id u) := by
      rw [hstu, List.find?_map]
      have hcomp : (byEmail email) ∘ (setPassword hashed u.id) = byEmail email := by
        funext w
        by_cases hw : w.id = u.id <;> simp [Function.comp, byEmail, setPassword, hw]
      rw [hcomp, hu]
      rfl
    have hfr : ((resetPassword true now hashed st email tok).store.resets).find?
        (resetQuery (setPassword hashed u.id u).id tok) = none := by
      rw [hstr]
      apply List.find?_eq_none.mpr
      intro x hx hq
      rcases List.mem_filter.mp hx with ⟨hxm, hxne⟩
      simp [resetQuery, setPassword] at hq
      have hx0 : x = r0 := huniq x hxm hq.1 hq.2
      rw [hx0] at hxne
      simp at hxne
    generalize hS : (resetPassword true now hashed st email tok).store = S at hfu hfr
    simp [resetPassword, hfu, hfr]

/-- A user used in the C8 witness. -/
def c8User : User :=
  { id := 9, username := "erin", email := "erin@x.com", password := "hE",
    is_verified := true, verification_token := none, verification_token_expiry := none }

/-- A live reset request for `c8User`. -/
def c8Reset : ResetRow := { id := 4, user_id := 9, token := "rt8", expires_at := 500 }

/-- Store holding `c8User` and `c8Reset`. -/
def c8Store : Store :=
  { users := [c8User], resets := [c8Reset], nextUserId := 10, nextResetId := 5 }

/-- C8 witness at concrete inputs. -/
theorem c8_reset_token_single_use_witness :
    (resetPassword true 100 "nh" c8Store "erin@x.com" "rt8").resp =
      { status := 200, success := true, message := "Password updated successfully" } ∧
    c8Reset ∉ (resetPassword true 100 "nh" c8Store "erin@x.com" "rt8").store.resets ∧
    (resetPassword true 200 "nh2" (resetPassword true 100 "nh" c8Store "erin@x.com" "rt8").store
        "erin@x.com" "rt8").resp = errResp 400 "Invalid token or email" :=
  c8_reset_token_single_use c8Store 100 200 "nh" "nh2" "erin@x.com" "rt8" c8User c8Reset
    (by decide) (by decide) (by decide) (by decide)

/-! ### Claim C9 -/

/-- The spec invariant on one `users` row: both token columns set or both
null, and a verified row has both null. -/
def userInv (u : User) : Prop :=
  (u.verification_token = none ↔ u.verification_token_expiry = none) ∧
  (u.is_verified = true → u.verification_token = none ∧ u.verification_token_expiry = none)

/-- The invariant over the whole `users` table. -/
def storeInv (st : Store) : Prop := ∀ u ∈ st.users, userInv u

/-- Column `id` is the primary key of `users`: rows never share an id. -/
def idsUnique (st : Store) : Prop := st.users.Pairwise (fun a b => a.id ≠ b.id)

/-- Column `email` carries a UNIQUE constraint: rows never share an email. -/
def emailsUnique (st : Store) : Prop := st.users.Pairwise (fun a b => a.email ≠ b.email)

/-- In a list pairwise-distinct under a key, two members with equal keys are
the same element. -/
theorem eq_of_mem_pairwise_key {α β : Type} (f : α → β) {l : List α}
    (hp : l.Pairwise (fun a b => f a ≠ f b)) {v w : α}
    (hv : v ∈ l) (hw : w ∈ l) (h : f v = f w) : v = w := by
  induction l with
  | nil => cases hv
  | cons a t ih =>
    rcases List.pairwise_cons.mp hp with ⟨ha, hp2⟩
    rcases List.mem_cons.mp hv with rfl | hv2
    · rcases List.mem_cons.mp hw with rfl | hw2
      · rfl
      · exact absurd h (ha w hw2)
    · rcases List.mem_cons.mp hw with rfl | hw2
      · exact absurd h.symm (ha v hv2)
      · exact ih hp2 hv2 hw2

/-- Handler `register` preserves the row invariant on every path. -/
theorem register_preserves_userInv
    (valid mailOk : Bool) (now : Nat) (tok hash username email : String) (st : Store)
    (hinv : storeInv st) (hid : idsUnique st) :
    storeInv (register valid mailOk now tok hash st username email).store := by
  cases valid with
  | false => simpa [register] using hinv
  | true =>
    cases hf : st.users.find? (regConflictQuery username email) with
    | none =>
      intro v hv
      have hv2 : v ∈ st.users ∨
          v = ⟨st.nextUserId, username, email, hash, false, some tok, some (now + MS24H)⟩ := by
        cases mailOk <;> simpa [register, hf] using hv
      rcases hv2 with hv3 | rfl
      · exact hinv v hv3
      · simp [userInv]
    | some ex =>
      cases hvx : ex.is_verified with
      | true => simpa [register, hf, hvx] using hinv
      | false =>
        have hex : ex ∈ st.users := List.mem_of_find?_eq_some hf
        have hstu : (register true mailOk now tok hash st username email).store.users =
            st.users.map (setTokenById tok (now + MS24H) ex.id) := by
          cases mailOk <;> simp [register, hf, hvx]
        intro v hv
        rw [hstu] at hv
        rcases List.mem_map.mp hv with ⟨w, hw, rfl⟩
        have hid2 : st.users.Pairwise (fun a b => a.id ≠ b.id) := hid
        by_cases hwid : w.id = ex.id
        · have hweq : w = ex := eq_of_mem_pairwise_key (fun x => x.id) hid2 hw hex hwid
          rw [hweq]
          simp [setTokenById, userInv, hvx]
        · have hskip : setTokenById tok (now + MS24H) ex.id w = w := by
            simp [setTokenById, hwid]
          rw [hskip]
          exact hinv w hw

/-- Handler `resend-verification` preserves the row invariant on every path. -/
theorem resend_preserves_userInv
    (valid mailOk : Bool) (now : Nat) (tok email : String) (st : Store)
    (hinv : storeInv st) (hem : emailsUnique st) :
    storeInv (resendVerification valid mailOk now tok st email).store := by
  cases valid with
  | false => simpa [resendVerification] using hinv
  | true =>
    cases hf : st.users.find? (byEmail email) with
    | none => simpa [resendVerification, hf] using hinv
    | some user =>
      cases hvx : user.is_verified with
      | true => simpa [resendVerification, hf, hvx] using hinv
      | false =>
        have huser : user ∈ st.users := List.mem_of_find?_eq_some hf
        have huem : user.email = email := by
          have hb := List.find?_some hf
          simpa [byEmail] using hb
        have hstu : (resendVerification true mailOk now tok st email).store.users =
            st.users.map (setTokenByEmail tok (now + MS24H) email) := by
          cases mailOk <;> simp [resendVerification, hf, hvx]
        intro v hv
        rw [hstu] at hv
        rcases List.mem_map.mp hv with ⟨w, hw, rfl⟩
        have hem2 : st.users.Pairwise (fun a b => a.email ≠ b.email) := hem
        by_cases hwe : w.email = email
        · have hweq : w = user :=
            eq_of_mem_pairwise_key (fun x => x.email) hem2 hw huser (hwe.trans huem.symm)
          rw [hweq]
          simp [setTokenByEmail, userInv, huem, hvx]
        · have hskip : setTokenByEmail tok (now + MS24H) email w = w := by
            simp [setTokenByEmail, hwe]
          rw [hskip]
          exact hinv w hw

/-- Handler `verify-email` preserves the row invariant on every path. -/
theorem verify_preserves_userInv
    (now : Nat) (st : Store) (tokQ emailQ : Option String)
    (hinv : storeInv st) :
    storeInv (verifyEmail now st tokQ emailQ).store := by
  match tokQ, emailQ with
  | none, q => simpa [verifyEmail] using hinv
  | some t, none => simpa [verifyEmail] using hinv
  | some t, some e =>
    by_cases hte : (t == "" || e == "") = true
    · simpa [verifyEmail, hte] using hinv
    · cases hf : st.users.find? (verifyQuery e t now) with
      | none => simpa [verifyEmail, hte, hf] using hinv
      | some u =>
        have hstu : (verifyEmail now st (some t) (some e)).store.users =
            st.users.map (markVerified e) := by
          simp [verifyEmail, hte, hf]
        intro v hv
        rw [hstu] at hv
        rcases List.mem_map.mp hv with ⟨w, hw, rfl⟩
        by_cases hwe : w.email = e
        · simp [markVerified, userInv, hwe]
        · have hskip : markVerified e w = w := by simp [markVerified, hwe]
          rw [hskip]
          exact hinv w hw

/-- C9: Register (both paths), ResendVerification and VerifyEmail all
preserve the invariant that the verification token and expiry of a row are both
set or both null and that a verified row has both null.  The uniqueness
hypotheses come from the schema: PRIMARY KEY on `id`, UNIQUE on `email`. -/
theorem c9_token_expiry_invariant
    (st : Store) (valid mailOk : Bool) (now : Nat)
    (freshToken hashedPassword username email remail : String) (tokQ emailQ : Option String)
    (hinv : storeInv st) (hid : idsUnique st) (hem : emailsUnique st) :
    storeInv (register valid mailOk now freshToken hashedPassword st username email).store ∧
    storeInv (resendVerification valid mailOk now freshToken st remail).store ∧
    storeInv (verifyEmail now st tokQ emailQ).store :=
  ⟨register_preserves_userInv valid mailOk now freshToken hashedPassword username email st hinv hid,
   resend_preserves_userInv valid mailOk now freshToken remail st hinv hem,
   verify_preserves_userInv now st tokQ emailQ hinv⟩

/-- C9 witness at concrete inputs. -/
theorem c9_token_expiry_invariant_witness :
    storeInv (register true true 0 "t" "h" emptyStore "u" "e@x.com").store ∧
    storeInv (resendVerification true true 0 "t" emptyStore "e@x.com").store ∧
    storeInv (verifyEmail 0 emptyStore (some "t") (some "e@x.com")).store :=
  c9_token_expiry_invariant emptyStore true true 0 "t" "h" "u" "e@x.com" "e@x.com"
    (some "t") (some "e@x.com")
    (fun u hu => absurd hu (List.not_mem_nil u))
    List.Pairwise.nil List.Pairwise.nil

/-! ### Claim C10 -/

/-- An unverified user used in the C10 theorem. -/
def c10User : User :=
  { id := 7, username := "alice", email := "alice@x.com", password := "h7",
    is_verified := false, verification_token := none, verification_token_expiry := none }

/-- Store holding only `c10User`. -/
def c10Store : Store := { users := [c10User], resets := [], nextUserId := 8, nextResetId := 1 }

/-- C10: a Register request reusing the username of the stored unverified
user but a different email takes the conflict-resend path: the fresh token
is stored on the existing row (whose email is still `alice@x.com`) while
the email carrying that token goes to the request-supplied address, which
the stored user does not own. -/
theorem c10_conflict_resend_sends_token_to_request_email :
    (register true true 0 "fresh" "hp" c10Store "alice" "attacker@evil.com").store.users =
      [{ c10User with verification_token := some "fresh",
                      verification_token_expiry := some MS24H }] ∧
    (register true true 0 "fresh" "hp" c10Store "alice" "attacker@evil.com").mails =
      [{ toAddr := "attacker@evil.com", tokenSent := some "fresh" }] ∧
    c10User.email ≠ "attacker@evil.com" ∧
    (register true true 0 "fresh" "hp" c10Store "alice" "attacker@evil.com").resp.success = true := by
  decide

end RecipeAuth
